import Mathlib

/-!
Shallow embedding of the reagraph `Line` component (src/src/symbols/Line.tsx)
and of the `GraphScene` component bundled in the same source file, together
with proofs of the behavioural properties stated in the specification.

Coordinates are modelled as rationals; JS `undefined` is modelled with
`Option`; spring durations use `Option Nat` where `none` stands for the JS
value `undefined` (meaning: use the default animated timing) and `some 0`
for an explicit duration of `0` (immediate update).
-/

/-- A three.js 3D point with x, y, z coordinates. -/
structure Point3 where
  x : Rat
  y : Rat
  z : Rat
deriving DecidableEq, Repr

/-- EdgeVectors3 from ../utils: the two endpoints of an edge. In JS either
endpoint may be `undefined`, which the Line component accesses through the
optional-chaining operator, so both fields are `Option`. -/
structure EdgeVectors3 where
  «from» : Option Point3
  «to» : Option Point3
deriving DecidableEq, Repr

/-- JS truthiness of a possibly-absent string, as used on the store value
`draggingId` in the expression `animated && !draggingId`: `undefined` or
`null` is falsy, the empty string is falsy, every other string is truthy. -/
def jsTruthy : Option String → Bool
  | none => false
  | some s => !(s == "")

/-- JS `a || d` on a possibly-undefined number, as in `points.from?.z || 0`:
`undefined` and `0` are falsy and fall through to the default. -/
def jsOr (a : Option Rat) (d : Rat) : Rat :=
  match a with
  | none => d
  | some v => if v = 0 then d else v

/-- The three.js `Vector3` constructor applied to a spread JS array
(`new Vector3(...arr)`): each of the first three arguments defaults to `0`
when it is missing or `undefined`. -/
def spreadVector3 (args : List (Option Rat)) : Point3 :=
  { x := (args.getD 0 none).getD 0
    y := (args.getD 1 none).getD 0
    z := (args.getD 2 none).getD 0 }

/-- A pair of vertex arrays, as held by the endpoint spring of `Line`
(`fromVertices` and `toVertices`); entries may be `undefined`. -/
structure VertexPair where
  fromVertices : List (Option Rat)
  toVertices : List (Option Rat)
deriving DecidableEq, Repr

/-- The configuration of the endpoint spring of `Line` (lines 60-89 of
Line.tsx): the initial `from` block, the `to` block, and the effective
duration of the config (`none` = JS `undefined` = animate with the default
timing, `some 0` = immediate). -/
structure EndpointSpringConfig where
  start : VertexPair
  target : VertexPair
  duration : Option Nat
deriving DecidableEq, Repr

/-- The endpoint spring created by `Line`. Translated from Line.tsx lines
60-89: the `from` block hardcodes both vertex arrays to `[0, 0, 0]`; the
`to` block reads `points.from?.x`, `points.from?.y`, `points.from?.z || 0`
(and the same for `to`); the duration is
`animated && !draggingId ? undefined : 0`. -/
def useEndpointSpring (animated : Bool) (draggingId : Option String)
    (points : EdgeVectors3) : EndpointSpringConfig :=
  { start := { fromVertices := [some 0, some 0, some 0]
               toVertices := [some 0, some 0, some 0] }
    target := { fromVertices :=
                  [points.«from».map Point3.x, points.«from».map Point3.y,
                   some (jsOr (points.«from».map Point3.z) 0)]
                toVertices :=
                  [points.«to».map Point3.x, points.«to».map Point3.y,
                   some (jsOr (points.«to».map Point3.z) 0)] }
    duration := if animated && !(jsTruthy draggingId) then none else some 0 }

/-- The configuration of the opacity spring of `Line` (lines 47-58 of
Line.tsx): from `lineOpacity: 0` to `lineOpacity: opacity`, with duration
`animated ? undefined : 0`. Note that, unlike the endpoint spring, this
config does not read `draggingId`. -/
structure OpacitySpringConfig where
  start : Rat
  target : Rat
  duration : Option Nat
deriving DecidableEq, Repr

/-- The opacity spring created by `Line`, translated from Line.tsx lines
47-58. -/
def useOpacitySpring (animated : Bool) (opacity : Rat) : OpacitySpringConfig :=
  { start := 0, target := opacity
    duration := if animated then none else some 0 }

/-- The pair of spring durations active in one render of `Line`, as a
function of the component inputs (the `animated` prop and the store value
`draggingId`): first the opacity spring duration, then the endpoint spring
duration. -/
def lineSpringDurations (animated : Bool) (draggingId : Option String)
    (opacity : Rat) (points : EdgeVectors3) : Option Nat × Option Nat :=
  ((useOpacitySpring animated opacity).duration,
   (useEndpointSpring animated draggingId points).duration)

/-- The midpoint of two points, used as the auxiliary control point of a
curved edge. -/
def midpoint3 (v w : Point3) : Point3 :=
  { x := (v.x + w.x) / 2, y := (v.y + w.y) / 2, z := (v.z + w.z) / 2 }

/-- Modelled from the spec: `getCurvePoints` lives in ../utils, which is not
part of the provided sources. The spec describes it as producing the
auxiliary (midpoint) control points through which the endpoints are
interpolated on curvature, without changing the endpoints: the returned
path starts at the `from` endpoint, passes through a midpoint control
point, and ends at the `to` endpoint. -/
def getCurvePoints (fromVector toVector : Point3) : List Point3 :=
  [fromVector, midpoint3 fromVector toVector, toVector]

/-- A three.js CatmullRomCurve3, identified by its list of control points
(the curve passes through all of its control points). -/
structure CatmullRomCurve3 where
  points : List Point3
deriving DecidableEq, Repr

/-- A three.js TubeBufferGeometry as constructed by the `onChange` handler
of the endpoint spring: `new TubeBufferGeometry(curve, 20, size / 2, 5,
false)`. -/
structure TubeBufferGeometry where
  curve : CatmullRomCurve3
  tubularSegments : Nat
  radius : Rat
  radialSegments : Nat
  closed : Bool
deriving DecidableEq, Repr

/-- The `onChange` handler of the endpoint spring, translated from Line.tsx
lines 70-82: rebuild the two endpoint vectors from the current spring value,
compute the curve control points, pick either the curved path or the
straight two-point path, and copy a fresh tube geometry into the tube ref. -/
def lineOnChange (curved : Bool) (size : Rat) (value : VertexPair) :
    TubeBufferGeometry :=
  let fromVector := spreadVector3 value.fromVertices
  let toVector := spreadVector3 value.toVertices
  let curvePoints := getCurvePoints fromVector toVector
  let curve :=
    if curved then CatmullRomCurve3.mk curvePoints
    else CatmullRomCurve3.mk [fromVector, toVector]
  { curve := curve, tubularSegments := 20, radius := size / 2
    radialSegments := 5, closed := false }

/-- The spring value holding the fully settled target vertices of a `Line`,
i.e. what `onChange` receives once the spring has reached its `to` block. -/
def lineSettledValue (animated : Bool) (draggingId : Option String)
    (points : EdgeVectors3) : VertexPair :=
  (useEndpointSpring animated draggingId points).target

/-- The vertex arrays of a fully supplied endpoint, as the spring target
holds them. -/
def vertexTriple (p : Point3) : List (Option Rat) :=
  [some p.x, some p.y, some p.z]

/-- Events a `Line` mesh can receive. -/
inductive MeshEvent where
  | pointerOver
  | pointerOut
  | click
  | pointerDown (buttons : Nat)
deriving DecidableEq, Repr

/-- Which callbacks one mesh event dispatch invokes (assuming all callback
props are provided), translated from the mesh element of Line.tsx lines
91-110: `onPointerOver` calls `onActive(true)` then `onPointerOver?.()`;
`onPointerOut` calls `onActive(false)` then `onPointerOut?.()`; `onClick`
is wired directly to the click event; `onPointerDown` stops propagation and
calls `onContextMenu()` exactly when `event.nativeEvent.buttons === 2`. -/
structure Invocations where
  onActiveArgs : List Bool
  onContextMenuCount : Nat
  onClickCount : Nat
  onPointerOverCount : Nat
  onPointerOutCount : Nat
  propagationStopped : Bool
deriving DecidableEq, Repr

/-- The event dispatch of the `Line` mesh, from Line.tsx lines 91-110. -/
def lineMeshDispatch : MeshEvent → Invocations
  | .pointerOver =>
      { onActiveArgs := [true], onContextMenuCount := 0, onClickCount := 0
        onPointerOverCount := 1, onPointerOutCount := 0
        propagationStopped := false }
  | .pointerOut =>
      { onActiveArgs := [false], onContextMenuCount := 0, onClickCount := 0
        onPointerOverCount := 0, onPointerOutCount := 1
        propagationStopped := false }
  | .click =>
      { onActiveArgs := [], onContextMenuCount := 0, onClickCount := 1
        onPointerOverCount := 0, onPointerOutCount := 0
        propagationStopped := false }
  | .pointerDown buttons =>
      if buttons == 2 then
        { onActiveArgs := [], onContextMenuCount := 1, onClickCount := 0
          onPointerOverCount := 0, onPointerOutCount := 0
          propagationStopped := true }
      else
        { onActiveArgs := [], onContextMenuCount := 0, onClickCount := 0
          onPointerOverCount := 0, onPointerOutCount := 0
          propagationStopped := false }

/-- Which of the optional callback props of `LineProps` (Line.tsx lines
13-26) were actually provided by the caller. -/
structure ProvidedCallbacks where
  onClick : Bool
  onActive : Bool
  onContextMenu : Bool
  onPointerOver : Bool
  onPointerOut : Bool
deriving DecidableEq, Repr

/-- JS evaluation of the mesh handlers of Line.tsx lines 91-110 under
definedness semantics: returns `true` when handling the event throws a
TypeError by calling an undefined value as a function. `onActive(true)` and
`onActive(false)` and `onContextMenu()` are called without a definedness
guard, while `onPointerOver?.()` and `onPointerOut?.()` use optional
calls; an absent `onClick` prop is simply an undefined React prop and is
never called. -/
def lineHandlerThrows (cbs : ProvidedCallbacks) : MeshEvent → Bool
  | .pointerOver => !cbs.onActive
  | .pointerOut => !cbs.onActive
  | .click => false
  | .pointerDown buttons => buttons == 2 && !cbs.onContextMenu

/-- A node record in the shared store; GraphScene only reads its id. -/
structure StoreNode where
  id : String
deriving DecidableEq, Repr

/-- An edge record in the shared store; GraphScene only reads its id. -/
structure StoreEdge where
  id : String
deriving DecidableEq, Repr

/-- The slice of the shared store that GraphScene subscribes to:
`state.graph`, `state.nodes` and `state.edges`. The graph object type is
abstract. -/
structure StoreState (G : Type) where
  graph : G
  nodes : List StoreNode
  edges : List StoreEdge

/-- The edge shapes accepted by GraphScene; the default is `line`. -/
inductive EdgeShape where
  | line
  | curve
deriving DecidableEq, Repr

/-- The GraphScene props that flow into the rendered primitives. Theme and
the two edge-placement types are external and kept abstract. -/
structure GraphSceneProps (Theme LabelPos ArrowPos : Type) where
  theme : Theme
  animated : Option Bool
  disabled : Option Bool
  draggable : Option Bool
  labelFontUrl : Option String
  edgeLabelPosition : Option LabelPos
  edgeArrowPosition : Option ArrowPos
  edgeShape : EdgeShape

/-- A rendered `Node` primitive with the props GraphScene passes it
(GraphScene lines 369-384 of the source file). -/
structure NodeElement (Theme : Type) where
  key : String
  id : String
  labelFontUrl : Option String
  draggable : Option Bool
  disabled : Option Bool
  animated : Option Bool
  theme : Theme

/-- A rendered `Edge` primitive with the props GraphScene passes it
(GraphScene lines 385-401 of the source file). -/
structure EdgeElement (Theme LabelPos ArrowPos : Type) where
  key : String
  id : String
  theme : Theme
  disabled : Option Bool
  animated : Option Bool
  curved : Bool
  labelPlacement : Option LabelPos
  arrowPlacement : Option ArrowPos

/-- The render function of GraphScene: read the node id and edge id lists
from the store, then map each node id to one `Node` element keyed by that
id and each edge id to one `Edge` element keyed by that id, passing the
configuration props through unchanged (`curved` is `edgeShape === 'curve'`).
Translated from the GraphScene return expression. -/
def graphSceneRender {G Theme LabelPos ArrowPos : Type}
    (props : GraphSceneProps Theme LabelPos ArrowPos) (state : StoreState G) :
    List (NodeElement Theme) × List (EdgeElement Theme LabelPos ArrowPos) :=
  let nodeIds := state.nodes.map StoreNode.id
  let edgeIds := state.edges.map StoreEdge.id
  (nodeIds.map fun n =>
    { key := n, id := n, labelFontUrl := props.labelFontUrl
      draggable := props.draggable, disabled := props.disabled
      animated := props.animated, theme := props.theme },
   edgeIds.map fun e =>
    { key := e, id := e, theme := props.theme, disabled := props.disabled
      animated := props.animated, curved := props.edgeShape == .curve
      labelPlacement := props.edgeLabelPosition
      arrowPlacement := props.edgeArrowPosition })

/-- Modelled from the spec: `useCenterGraph` and its `centerNodesById` live
in ./CameraControls, which is not part of the provided sources. Per the
spec, calling the centering function with no id list centers the camera on
all nodes, and calling it with an id list centers it on exactly that subset
of nodes. The model returns the list of node ids the camera is centered
on. -/
def centerNodesById (allNodeIds : List String) :
    Option (List String) → List String
  | none => allNodeIds
  | some ids => ids

/-- The imperative handle exposed by GraphScene through
`useImperativeHandle` (lines 358-365 of the GraphScene source): an object
with the `centerGraph` function and the `graph` object from the store. -/
structure GraphSceneRef (G : Type) where
  graph : G
  centerGraph : Option (List String) → List String

/-- Construction of the imperative handle of GraphScene from the store
state: `graph` is `state.graph` and `centerGraph` is the `centerNodesById`
function over the node ids of the store. -/
def graphSceneHandle {G : Type} (state : StoreState G) : GraphSceneRef G :=
  { graph := state.graph
    centerGraph := centerNodesById (state.nodes.map StoreNode.id) }

/-- C1: whenever a drag interaction is in progress (the store draggingId is
set, i.e. truthy), the endpoint spring of `Line` has duration 0, so endpoint
position updates apply immediately with no animated interpolation, for every
value of the animated prop. -/
theorem endpointSpring_immediate_during_drag (animated : Bool)
    (draggingId : Option String) (points : EdgeVectors3)
    (h : jsTruthy draggingId = true) :
    (useEndpointSpring animated draggingId points).duration = some 0 := by
  simp [useEndpointSpring, h]

/-- Witness for C1 at a concrete dragging state. -/
theorem endpointSpring_immediate_during_drag_witness :
    jsTruthy (some "node-1") = true ∧
    (useEndpointSpring true (some "node-1")
        { «from» := some ⟨1, 2, 3⟩, «to» := some ⟨4, 5, 6⟩ }).duration
      = some 0 :=
  ⟨by decide,
   endpointSpring_immediate_during_drag true (some "node-1")
     { «from» := some ⟨1, 2, 3⟩, «to» := some ⟨4, 5, 6⟩ } (by decide)⟩

/-- C2: a pointer-down event on the `Line` mesh invokes onContextMenu and
stops propagation if and only if the buttons value of the event equals 2,
and never invokes onClick. -/
theorem linePointerDown_contextMenu_iff_rightButton (buttons : Nat) :
    ((lineMeshDispatch (.pointerDown buttons)).onContextMenuCount = 1 ∧
       (lineMeshDispatch (.pointerDown buttons)).propagationStopped = true ↔
         buttons = 2) ∧
    (lineMeshDispatch (.pointerDown buttons)).onClickCount = 0 := by
  by_cases h : buttons = 2 <;> simp [lineMeshDispatch, h]

/-- C3: when an endpoint of the points prop is missing, the corresponding
target vertex vector fed into the tube geometry is the origin. -/
theorem missingEndpoint_defaults_to_origin (animated : Bool)
    (draggingId : Option String) (points : EdgeVectors3) :
    (points.«from» = none →
      spreadVector3
          (useEndpointSpring animated draggingId points).target.fromVertices
        = ⟨0, 0, 0⟩) ∧
    (points.«to» = none →
      spreadVector3
          (useEndpointSpring animated draggingId points).target.toVertices
        = ⟨0, 0, 0⟩) := by
  constructor <;> intro h <;>
    simp [useEndpointSpring, spreadVector3, h, jsOr]

/-- Witness for C3 at a points prop with both endpoints missing. -/
theorem missingEndpoint_defaults_to_origin_witness :
    spreadVector3
        (useEndpointSpring true none ⟨none, none⟩).target.fromVertices
      = ⟨0, 0, 0⟩ ∧
    spreadVector3
        (useEndpointSpring true none ⟨none, none⟩).target.toVertices
      = ⟨0, 0, 0⟩ :=
  ⟨(missingEndpoint_defaults_to_origin true none ⟨none, none⟩).1 rfl,
   (missingEndpoint_defaults_to_origin true none ⟨none, none⟩).2 rfl⟩

/-- C4: with curvature disabled, the curve handed to the tube geometry is
built from exactly the two endpoint vectors, a straight two-point path. -/
theorem straightLine_curve_is_two_endpoints (fromVector toVector : Point3)
    (size : Rat) :
    (lineOnChange false size
        ⟨vertexTriple fromVector, vertexTriple toVector⟩).curve
      = CatmullRomCurve3.mk [fromVector, toVector] := by
  rfl

/-- C5: with curvature enabled, the path is exactly the control point list
returned by getCurvePoints, and its first and last points are the same
endpoints as in the straight (curved = false) path. -/
theorem curved_path_through_control_points (fromVector toVector : Point3)
    (size : Rat) :
    (lineOnChange true size
          ⟨vertexTriple fromVector, vertexTriple toVector⟩).curve.points
        = getCurvePoints fromVector toVector ∧
    (lineOnChange true size
          ⟨vertexTriple fromVector, vertexTriple toVector⟩).curve.points.head?
        = some fromVector ∧
    (lineOnChange true size
          ⟨vertexTriple fromVector,
           vertexTriple toVector⟩).curve.points.getLast?
        = some toVector ∧
    (lineOnChange false size
          ⟨vertexTriple fromVector, vertexTriple toVector⟩).curve.points.head?
        = some fromVector ∧
    (lineOnChange false size
          ⟨vertexTriple fromVector,
           vertexTriple toVector⟩).curve.points.getLast?
        = some toVector :=
  ⟨rfl, rfl, rfl, rfl, rfl⟩

/-- C6 counterexample: with the animated prop true and a drag in progress
(draggingId is the truthy string node-1), the opacity spring duration is
undefined (animated default timing), not 0, so opacity transitions are not
immediate during drag. -/
theorem opacitySpring_not_immediate_during_drag :
    jsTruthy (some "node-1") = true ∧
    (lineSpringDurations true (some "node-1") 1 ⟨none, none⟩).1 ≠ some 0 := by
  decide

/-- C6 amended: the opacity spring duration of `Line` depends only on the
animated prop, undefined (smooth animation) when animated is true and 0
(immediate) when animated is false; drag state does not affect it, unlike
the endpoint spring. -/
theorem opacitySpring_duration_ignores_drag (animated : Bool)
    (draggingId : Option String) (opacity : Rat) (points : EdgeVectors3) :
    (lineSpringDurations animated draggingId opacity points).1
        = (if animated then none else some 0) ∧
    ∀ d : Option String,
      (lineSpringDurations animated d opacity points).1
        = (lineSpringDurations animated draggingId opacity points).1 :=
  ⟨rfl, fun _ => rfl⟩

/-- C7: GraphScene renders exactly one Node element per node id and one
Edge element per edge id of the store (same ids, in order, used as keys),
and passes theme, animated, disabled and the label/arrow placement props
uniformly: every rendered Node carries the same theme, animated and
disabled values, and every rendered Edge carries the same theme, animated,
disabled, labelPlacement and arrowPlacement values, each equal to the
incoming prop. -/
theorem graphSceneRender_one_per_id {G Theme LabelPos ArrowPos : Type}
    (props : GraphSceneProps Theme LabelPos ArrowPos) (state : StoreState G) :
    ((graphSceneRender props state).1.map NodeElement.id
        = state.nodes.map StoreNode.id) ∧
    ((graphSceneRender props state).1.map NodeElement.key
        = state.nodes.map StoreNode.id) ∧
    ((graphSceneRender props state).2.map EdgeElement.id
        = state.edges.map StoreEdge.id) ∧
    ((graphSceneRender props state).2.map EdgeElement.key
        = state.edges.map StoreEdge.id) ∧
    ((graphSceneRender props state).1.map NodeElement.theme
        = List.replicate state.nodes.length props.theme) ∧
    ((graphSceneRender props state).1.map NodeElement.animated
        = List.replicate state.nodes.length props.animated) ∧
    ((graphSceneRender props state).1.map NodeElement.disabled
        = List.replicate state.nodes.length props.disabled) ∧
    ((graphSceneRender props state).2.map EdgeElement.theme
        = List.replicate state.edges.length props.theme) ∧
    ((graphSceneRender props state).2.map EdgeElement.animated
        = List.replicate state.edges.length props.animated) ∧
    ((graphSceneRender props state).2.map EdgeElement.disabled
        = List.replicate state.edges.length props.disabled) ∧
    ((graphSceneRender props state).2.map EdgeElement.labelPlacement
        = List.replicate state.edges.length props.edgeLabelPosition) ∧
    ((graphSceneRender props state).2.map EdgeElement.arrowPlacement
        = List.replicate state.edges.length props.edgeArrowPosition) := by
  simp [graphSceneRender, List.map_map, Function.comp_def]

/-- C8: the imperative handle of GraphScene exposes the graph object of the
store unchanged and a centerGraph function that, called with no id list,
centers on all node ids of the store, and called with an id list, centers
on exactly that subset. -/
theorem graphSceneHandle_centers {G : Type} (state : StoreState G) :
    (graphSceneHandle state).graph = state.graph ∧
    (graphSceneHandle state).centerGraph none = state.nodes.map StoreNode.id ∧
    ∀ ids : List String,
      (graphSceneHandle state).centerGraph (some ids) = ids :=
  ⟨rfl, rfl, fun _ => rfl⟩

/-- C9: the optional callbacks onActive and onContextMenu are invoked
without a definedness guard, so a `Line` mounted without them throws on a
pointer-over, a pointer-out, and a right-button pointer-down, while a
`Line` with all callbacks provided does not throw on those events. -/
theorem lineHandler_throws_without_callbacks :
    lineHandlerThrows ⟨false, false, false, false, false⟩ .pointerOver
        = true ∧
    lineHandlerThrows ⟨false, false, false, false, false⟩ .pointerOut
        = true ∧
    lineHandlerThrows ⟨false, false, false, false, false⟩ (.pointerDown 2)
        = true ∧
    lineHandlerThrows ⟨true, true, true, true, true⟩ .pointerOver = false ∧
    lineHandlerThrows ⟨true, true, true, true, true⟩ (.pointerDown 2)
        = false := by
  decide

/-- C10: the initial block of the endpoint spring hardcodes both vertex
arrays to the origin regardless of the points prop, so the first animated
transition starts both endpoints at the origin vector. -/
theorem endpointSpring_starts_at_origin (animated : Bool)
    (draggingId : Option String) (points : EdgeVectors3) :
    (useEndpointSpring animated draggingId points).start.fromVertices
        = [some 0, some 0, some 0] ∧
    (useEndpointSpring animated draggingId points).start.toVertices
        = [some 0, some 0, some 0] ∧
    spreadVector3 (useEndpointSpring animated draggingId points).start.fromVertices
        = ⟨0, 0, 0⟩ ∧
    spreadVector3 (useEndpointSpring animated draggingId points).start.toVertices
        = ⟨0, 0, 0⟩ :=
  ⟨rfl, rfl, rfl, rfl⟩
